import Mathlib

/-!
# Verification of the GEO-app AI Visibility Testing Engine

Shallow embedding of the core engine of `backend/app/services/speed_test.py`
and `backend/app/services/ai_service.py` (plus the fuzzy brand matcher of
`backend/app/services/visibility_monitor.py`), together with theorems that
settle the specification claims about it.

Strings are modelled as `List Char` (via `String.toList` at the boundary);
Python float arithmetic on mention rates is modelled with exact rationals;
wall-clock timing fields are fixed at `0` (they carry no logical content).
-/

namespace GeoApp

/-! ## Python string primitives -/

/-- Python whitespace class `\s` over ASCII: space, tab, newline, carriage
return, vertical tab, form feed. -/
def isPySpace (c : Char) : Bool :=
  c = ' ' || c = '\t' || c = '\n' || c = '\r' || c = '\x0b' || c = '\x0c'

/-- `str.lower()` (ASCII-relevant part), applied characterwise. -/
def pyLower (s : List Char) : List Char := s.map Char.toLower

/-- Python's substring test `needle in hay`. -/
def pyIn (needle : List Char) : List Char → Bool
  | [] => needle.isEmpty
  | c :: rest => needle.isPrefixOf (c :: rest) || pyIn needle rest

/-- `str.replace(" ", "")`: remove every space character. -/
def dropSpaces (s : List Char) : List Char := s.filter (fun c => !(c = ' '))

/-- `str.replace(" ", "-")`: turn every space into a hyphen. -/
def spacesToHyphens (s : List Char) : List Char :=
  s.map (fun c => if c = ' ' then '-' else c)

/-- `str.split(sep)` for a one-character separator (e.g. `response.split('\n')`). -/
def pySplitOn (sep : Char) : List Char → List (List Char)
  | [] => [[]]
  | c :: rest =>
    if c = sep then [] :: pySplitOn sep rest
    else
      match pySplitOn sep rest with
      | [] => [[c]]
      | g :: gs => (c :: g) :: gs

/-- `re.split(r'[.!?]', s)`: split on any of a set of one-character separators. -/
def pySplitAny (seps : List Char) : List Char → List (List Char)
  | [] => [[]]
  | c :: rest =>
    if seps.contains c then [] :: pySplitAny seps rest
    else
      match pySplitAny seps rest with
      | [] => [[c]]
      | g :: gs => (c :: g) :: gs

/-- `str.strip()`: remove leading and trailing whitespace. -/
def pyStrip (s : List Char) : List Char :=
  ((s.dropWhile isPySpace).reverse.dropWhile isPySpace).reverse

/-- `' '.join(parts)`. -/
def joinSpace (parts : List (List Char)) : List Char :=
  match parts with
  | [] => []
  | p :: ps => ps.foldl (fun acc q => acc ++ [' '] ++ q) p

/-- Whitespace tokenisation `str.split()` (no argument): split on runs of
whitespace, dropping empty pieces. -/
def pySplitWs (s : List Char) : List (List Char) :=
  (pySplitAny [' ', '\t', '\n', '\r', '\x0b', '\x0c'] s).filter (fun p => !p.isEmpty)

/-- Truthiness of an optional Python string: `None` and `""` are falsy. -/
def pyTruthyOptStr : Option (List Char) → Bool
  | none => false
  | some s => !s.isEmpty

/-- ASCII decimal digits to the number `int(...)` parses from them. -/
def digitsToNat (ds : List Char) : Nat :=
  ds.foldl (fun a c => a * 10 + (c.toNat - 48)) 0

/-! ## Data model (`backend/app/models/speed_test.py`) -/

/-- `ModelResult`: the outcome of one prompt × model query (one Cell). -/
structure ModelResult where
  model_id : List Char
  model_name : List Char
  provider : List Char
  mentioned : Bool
  position : Option Nat := none
  sentiment : List Char := "neutral".toList
  competitors_found : List (List Char) := []
  killer_quote : Option (List Char) := none
  full_response : List Char := []
  response_time_ms : Nat := 0
  prompt : List Char := []
  error : Option (List Char) := none
deriving DecidableEq, Repr

/-! ## Response analyzer (`SpeedTestService`, speed_test.py) -/

/-- `SpeedTestService._brand_in_response`: fuzzy brand-mention test.
Lowercased direct substring, space-stripped substring, or the brand with
spaces replaced by hyphens as a substring. -/
def brand_in_response (brand response : List Char) : Bool :=
  if response.isEmpty then false
  else
    let response_lower := pyLower response
    let brand_lower := pyLower brand
    if pyIn brand_lower response_lower then true
    else if pyIn (dropSpaces brand_lower) (dropSpaces response_lower) then true
    else if pyIn (spacesToHyphens brand_lower) response_lower then true
    else false

/-- `VisibilityMonitor._normalize_for_matching`: lowercase, turn `-`, `_`,
`.` into spaces, then collapse whitespace runs to single spaces. -/
def normalize_for_matching (text : List Char) : List Char :=
  joinSpace (pySplitWs
    ((pyLower text).map (fun c => if c = '-' || c = '_' || c = '.' then ' ' else c)))

/-- `VisibilityMonitor._brand_in_text`: fuzzy brand matching through
`_normalize_for_matching`. -/
def brand_in_text (brand text : List Char) : Bool :=
  if pyIn (normalize_for_matching brand) (normalize_for_matching text) then true
  else if pyIn (pyLower brand) (pyLower text) then true
  else if pyIn (dropSpaces (normalize_for_matching brand))
      (dropSpaces (normalize_for_matching text)) then true
  else false

/-- The mention-detection rule exactly as the specification words it (match
iff the normalized brand is a substring of the normalized text, or the
space-stripped brand is a substring of the space-stripped text), written
here only to compare the spec's claim with the embedded code. -/
def specClaimedMention (brand text : List Char) : Bool :=
  pyIn (normalize_for_matching brand) (normalize_for_matching text) ||
  pyIn (dropSpaces (normalize_for_matching brand))
    (dropSpaces (normalize_for_matching text))

/-- The regex `^[\s]*(\d+)[.\):\-]` applied to one line: optional leading
whitespace, at least one digit, then one of `.`, `)`, `:`, `-`; returns the
parsed number. -/
def numberedPrefix (line : List Char) : Option Nat :=
  let rest := line.dropWhile isPySpace
  let digits := rest.takeWhile Char.isDigit
  let after := rest.dropWhile Char.isDigit
  if digits.isEmpty then none
  else
    match after with
    | c :: _ =>
      if c = '.' || c = ')' || c = ':' || c = '-' then some (digitsToNat digits)
      else none
    | [] => none

/-- `line.strip().startswith(('-', '*', '•'))`. -/
def isBulletLine (line : List Char) : Bool :=
  match pyStrip line with
  | c :: _ => c = '-' || c = '*' || c = '•'
  | [] => false

/-- Loop body of `_find_position`: scan the remaining lines; on the first
line containing the brand, return its numbered-list prefix, or the count of
bullet lines up to and including it; a brand line with neither simply lets
the loop move on to the next line. -/
def find_position_go (brand_lower : List Char) (allLines : List (List Char)) :
    List (List Char) → Nat → Option Nat
  | [], _ => none
  | line :: rest, i =>
    let line_lower := pyLower line
    if pyIn brand_lower line_lower ||
        pyIn (dropSpaces brand_lower) (dropSpaces line_lower) then
      match numberedPrefix line with
      | some n => some n
      | none =>
        if isBulletLine line then
          some (((allLines.take (i + 1)).filter isBulletLine).length)
        else find_position_go brand_lower allLines rest (i + 1)
    else find_position_go brand_lower allLines rest (i + 1)

/-- `SpeedTestService._find_position`. -/
def find_position (brand response : List Char) : Option Nat :=
  if response.isEmpty then none
  else
    let lines := pySplitOn '\n' response
    find_position_go (pyLower brand) lines lines 0

/-! ## Competitor extraction (`SpeedTestService._extract_brands_from_response`)

The three brand regexes are modelled as direct scanners with Python `re`
backtracking semantics: `findall` scans left to right, emits each match's
capture group and resumes after the match. -/

/-- ASCII uppercase letter, regex class `[A-Z]`. -/
def isUpperAZ (c : Char) : Bool := 'A' ≤ c && c ≤ 'Z'

/-- ASCII lowercase letter, regex class `[a-z]`. -/
def isLowerAZ (c : Char) : Bool := 'a' ≤ c && c ≤ 'z'

/-- Regex word character `\w` (ASCII part): letter, digit or underscore. -/
def isWordChar (c : Char) : Bool := isUpperAZ c || isLowerAZ c || c.isDigit || c = '_'

/-- The character class `[a-zA-Z\s&]` of the first and third brand patterns. -/
def isClassBrand (c : Char) : Bool := isUpperAZ c || isLowerAZ c || isPySpace c || c = '&'

/-- True when the text starts with the two characters `**`. -/
def startsStarStar : List Char → Bool
  | '*' :: '*' :: _ => true
  | _ => false

/-- The lazy body `[a-zA-Z\s&]+?` of pattern 1: consume at least one class
character and stop at the first point where the closing `**` follows.
Returns the consumed body and the text after the closing `**`. -/
def lazyBody1 : Nat → List Char → Option (List Char × List Char)
  | 0, _ => none
  | _ + 1, [] => none
  | fuel + 1, c :: rest =>
    if isClassBrand c then
      if startsStarStar rest then some ([c], rest.drop 2)
      else
        match lazyBody1 fuel rest with
        | some (body, after) => some (c :: body, after)
        | none => none
    else none

/-- Try pattern 1, `\*\*([A-Z][a-zA-Z\s&]+?)\*\*`, at the head of the text:
on success, the captured group and the text after the match. -/
def match1 : List Char → Option (List Char × List Char)
  | '*' :: '*' :: c0 :: rest =>
    if isUpperAZ c0 then
      match lazyBody1 rest.length rest with
      | some (body, after) => some (c0 :: body, after)
      | none => none
    else none
  | _ => none

/-- `re.findall` for pattern 1 (fuel bounds the scan; each step consumes at
least one character, so the text length is always enough fuel). -/
def findall1Go : Nat → List Char → List (List Char)
  | 0, _ => []
  | _ + 1, [] => []
  | fuel + 1, c :: rest =>
    match match1 (c :: rest) with
    | some (g, after) => g :: findall1Go fuel after
    | none => findall1Go fuel rest

/-- All captures of `\*\*([A-Z][a-zA-Z\s&]+?)\*\*` in the text. -/
def findall1 (text : List Char) : List (List Char) := findall1Go text.length text

/-- Word-boundary test after a match: end of text or a non-word character. -/
def boundaryAfter : List Char → Bool
  | [] => true
  | c :: _ => !isWordChar c

/-- Try pattern 2, `\b([A-Z][a-z]+(?:\s+[A-Z][a-z]+)?)\b`, at the head of
the text (the caller guarantees the word boundary before it). The greedy
two-word alternative is attempted first, then the single word; the runs of
`[a-z]+` and `\s+` are maximal because shortening them can never satisfy
the following atom. -/
def match2 : List Char → Option (List Char × List Char)
  | [] => none
  | c0 :: rest =>
    if isUpperAZ c0 then
      if (rest.takeWhile isLowerAZ).isEmpty then none
      else
        match
          (if (((rest.dropWhile isLowerAZ).takeWhile isPySpace).isEmpty) then none
           else
             match (rest.dropWhile isLowerAZ).dropWhile isPySpace with
             | c1 :: rest3 =>
               if isUpperAZ c1 then
                 if (rest3.takeWhile isLowerAZ).isEmpty then none
                 else if boundaryAfter (rest3.dropWhile isLowerAZ) then
                   some (c0 :: rest.takeWhile isLowerAZ ++
                       (rest.dropWhile isLowerAZ).takeWhile isPySpace ++
                       c1 :: rest3.takeWhile isLowerAZ,
                     rest3.dropWhile isLowerAZ)
                 else none
               else none
             | [] => none : Option (List Char × List Char)) with
        | some res => some res
        | none =>
          if boundaryAfter (rest.dropWhile isLowerAZ) then
            some (c0 :: rest.takeWhile isLowerAZ, rest.dropWhile isLowerAZ)
          else none
    else none

/-- `re.findall` for pattern 2, tracking whether the previous character was
a word character (the `\b` before each candidate). -/
def findall2Go : Nat → Bool → List Char → List (List Char)
  | 0, _, _ => []
  | _ + 1, _, [] => []
  | fuel + 1, prevWord, c :: rest =>
    if prevWord then findall2Go fuel (isWordChar c) rest
    else
      match match2 (c :: rest) with
      | some (g, after) => g :: findall2Go fuel true after
      | none => findall2Go fuel (isWordChar c) rest

/-- All captures of `\b([A-Z][a-z]+(?:\s+[A-Z][a-z]+)?)\b` in the text. -/
def findall2 (text : List Char) : List (List Char) := findall2Go text.length false text

/-- Try pattern 3, `(?:\d+[.\)]\s*)([A-Z][a-zA-Z\s&]+)`, at the head of the
text. -/
def match3 (l : List Char) : Option (List Char × List Char) :=
  if (l.takeWhile Char.isDigit).isEmpty then none
  else
    match l.dropWhile Char.isDigit with
    | c :: rest1 =>
      if c = '.' || c = ')' then
        match rest1.dropWhile isPySpace with
        | c0 :: rest3 =>
          if isUpperAZ c0 then
            if (rest3.takeWhile isClassBrand).isEmpty then none
            else some (c0 :: rest3.takeWhile isClassBrand, rest3.dropWhile isClassBrand)
          else none
        | [] => none
      else none
    | [] => none

/-- `re.findall` for pattern 3. -/
def findall3Go : Nat → List Char → List (List Char)
  | 0, _ => []
  | _ + 1, [] => []
  | fuel + 1, c :: rest =>
    match match3 (c :: rest) with
    | some (g, after) => g :: findall3Go fuel after
    | none => findall3Go fuel rest

/-- All captures of `(?:\d+[.\)]\s*)([A-Z][a-zA-Z\s&]+)` in the text. -/
def findall3 (text : List Char) : List (List Char) := findall3Go text.length text

/-- The `skip_words` stop set of `_extract_brands_from_response` (the source
lists "why" and "quality" twice; a set keeps one copy). -/
def skipWords : List (List Char) :=
  ["the", "and", "for", "with", "this", "that", "these", "those",
   "here", "there", "when", "what", "which", "who", "how", "why",
   "best", "top", "great", "good", "nice", "quality", "price",
   "overall", "however", "although", "because", "since", "while",
   "brand", "brands", "product", "products", "option", "options",
   "choice", "choices", "alternative", "alternatives", "recommend",
   "known", "popular", "famous", "leading", "premier", "luxury",
   "high", "low", "mid", "range", "end", "tier", "level",
   "pros", "cons", "features", "benefits"].map String.toList

/-- One step of the filtering loop of `_extract_brands_from_response`:
strip the match, then skip stop words, the user's brand (or any candidate
containing it), candidates outside 3–30 characters, candidates with a
digit, and duplicates; otherwise append the candidate. -/
def extractStep (user_brand_lower : List Char) (acc : List (List Char))
    (m : List Char) : List (List Char) :=
  if skipWords.contains (pyLower (pyStrip m)) then acc
  else if pyLower (pyStrip m) = user_brand_lower ||
      pyIn user_brand_lower (pyLower (pyStrip m)) then acc
  else if (pyStrip m).length < 3 || (pyStrip m).length > 30 then acc
  else if (pyStrip m).any Char.isDigit then acc
  else if acc.contains (pyStrip m) then acc
  else acc ++ [pyStrip m]

/-- `SpeedTestService._extract_brands_from_response`: run the three brand
patterns in order, filter their matches, keep at most 10. -/
def extract_brands_from_response (response user_brand : List Char) :
    List (List Char) :=
  if response.isEmpty then []
  else
    ((findall1 response ++ findall2 response ++ findall3 response).foldl
      (extractStep (pyLower user_brand)) []).take 10

/-- The property every kept competitor satisfies: not a stop word, not the
user's brand nor a candidate containing it, length within 3–30, digit-free. -/
def keptCandidateOK (user_brand_lower b : List Char) : Prop :=
  skipWords.contains (pyLower b) = false ∧
  pyLower b ≠ user_brand_lower ∧
  pyIn user_brand_lower (pyLower b) = false ∧
  3 ≤ b.length ∧ b.length ≤ 30 ∧
  b.any Char.isDigit = false

/-! ## Score aggregator (`SpeedTestService._calculate_score`, `_get_verdict`) -/

/-- `mentions / total` with Python truthiness of the list (`0` when empty). -/
def mentionRateOf (results : List ModelResult) : ℚ :=
  if results.length = 0 then 0
  else ((results.filter (·.mentioned)).length : ℚ) / (results.length : ℚ)

/-- `positions = [r.position for r in results if r.position]` — Python
truthiness drops both `None` and `0`. -/
def recordedPositions (results : List ModelResult) : List Nat :=
  results.filterMap (fun r =>
    match r.position with
    | some p => if p = 0 then none else some p
    | none => none)

/-- Average recorded position, defaulting to 10 when none are recorded. -/
def avgPositionOf (results : List ModelResult) : ℚ :=
  if (recordedPositions results).isEmpty then 10
  else (((recordedPositions results).foldl (· + ·) 0 : Nat) : ℚ) /
    ((recordedPositions results).length : ℚ)

/-- `position_bonus = 20 if avg <= 2 else (10 if avg <= 4 else 0)`. -/
def positionBonusOf (results : List ModelResult) : ℚ :=
  if avgPositionOf results ≤ 2 then 20
  else if avgPositionOf results ≤ 4 then 10 else 0

/-- `sentiments = [r.sentiment for r in results if r.mentioned]`. -/
def mentionedSentiments (results : List ModelResult) : List (List Char) :=
  (results.filter (·.mentioned)).map (·.sentiment)

/-- Fraction of mentioned cells whose sentiment is `"positive"` (0 when no
cell is mentioned). -/
def positiveRateOf (results : List ModelResult) : ℚ :=
  if (mentionedSentiments results).isEmpty then 0
  else (((mentionedSentiments results).filter (fun s => s = "positive".toList)).length : ℚ) /
    ((mentionedSentiments results).length : ℚ)

/-- `sentiment_bonus = 10 if positive_rate > 0.5 else (5 if > 0.25 else 0)`. -/
def sentimentBonusOf (results : List ModelResult) : ℚ :=
  if positiveRateOf results > 1 / 2 then 10
  else if positiveRateOf results > 1 / 4 then 5 else 0

/-- `providers = set(r.provider for r in results if r.mentioned)` — number of
distinct providers among mentioned cells. -/
def mentionedProviderCount (results : List ModelResult) : Nat :=
  (((results.filter (·.mentioned)).map (·.provider)).eraseDups).length

/-- `consistency_bonus = 10 if len(providers) >= 2 else (5 if >= 1 else 0)`. -/
def consistencyBonusOf (results : List ModelResult) : ℚ :=
  if mentionedProviderCount results ≥ 2 then 10
  else if mentionedProviderCount results ≥ 1 then 5 else 0

/-- `base = mention_rate * 60`. -/
def baseOf (results : List ModelResult) : ℚ := mentionRateOf results * 60

/-- `score = min(100, int(base + position_bonus + sentiment_bonus +
consistency_bonus))` — `int` truncates; every term is nonnegative, so this is
the floor. -/
def scoreOf (results : List ModelResult) : ℤ :=
  if results.isEmpty then 0
  else
    min 100 ⌊baseOf results + positionBonusOf results + sentimentBonusOf results +
      consistencyBonusOf results⌋

/-- `SpeedTestService._get_verdict`: map a score to (verdict, emoji, grade). -/
def get_verdict (score : ℤ) : String × String × String :=
  if score < 20 then ("invisible", "🔴", "F")
  else if score < 40 then ("ghost", "🟠", "D")
  else if score < 60 then ("contender", "🟡", "C")
  else if score < 80 then ("visible", "🟢", "B")
  else ("authority", "💚", "A")

/-- `SpeedTestService._calculate_score`: score plus verdict triple. -/
def calculate_score (results : List ModelResult) : ℤ × String × String × String :=
  if results.isEmpty then (0, "invisible", "🔴", "F")
  else (scoreOf results, get_verdict (scoreOf results))

/-! ## The aggregation slice of `SpeedTestService.run_test` -/

/-- `valid_results = [r for r in all_results if r and not r.error]`: a cell
counts as valid when its error field is falsy (`None` or the empty string). -/
def validResults (all_results : List ModelResult) : List ModelResult :=
  all_results.filter (fun r => !pyTruthyOptStr r.error)

/-- `run_test`'s aggregate mention rate:
`len([r for r in valid_results if r.mentioned]) / len(valid_results)` with
`0` when there is no valid result. -/
def runTestMentionRate (all_results : List ModelResult) : ℚ :=
  if (validResults all_results).isEmpty then 0
  else (((validResults all_results).filter (·.mentioned)).length : ℚ) /
    ((validResults all_results).length : ℚ)

/-- `run_test`'s score: `_calculate_score(valid_results)` applied to the
error-free cells only. -/
def runTestScore (all_results : List ModelResult) : ℤ :=
  (calculate_score (validResults all_results)).1

/-! ## Sentiment and quote extraction (`SpeedTestService`) -/

/-- Positive cue words of `_analyze_sentiment`. -/
def positiveWords : List (List Char) :=
  ["best", "excellent", "great", "top", "leading", "recommend",
   "outstanding", "innovative", "quality", "trusted", "reliable",
   "popular", "favorite", "preferred", "premium", "loved"].map String.toList

/-- Negative cue words of `_analyze_sentiment`. -/
def negativeWords : List (List Char) :=
  ["bad", "poor", "avoid", "problem", "issue", "complaint",
   "expensive", "overpriced", "disappointing", "lacks", "limited"].map String.toList

/-- `SpeedTestService._analyze_sentiment`: majority vote of cue words over
the brand-bearing sentences, "neutral" on a tie or when no sentence names
the brand. -/
def analyze_sentiment (response brand : List Char) : List Char :=
  if response.isEmpty then "neutral".toList
  else
    if ((pySplitAny ['.', '!', '?'] response).filter
        (fun s => pyIn (pyLower brand) (pyLower s))).isEmpty then "neutral".toList
    else
      if (positiveWords.filter (fun w => pyIn w
            (pyLower (joinSpace ((pySplitAny ['.', '!', '?'] response).filter
              (fun s => pyIn (pyLower brand) (pyLower s))))))).length >
          (negativeWords.filter (fun w => pyIn w
            (pyLower (joinSpace ((pySplitAny ['.', '!', '?'] response).filter
              (fun s => pyIn (pyLower brand) (pyLower s))))))).length then
        "positive".toList
      else if (negativeWords.filter (fun w => pyIn w
            (pyLower (joinSpace ((pySplitAny ['.', '!', '?'] response).filter
              (fun s => pyIn (pyLower brand) (pyLower s))))))).length >
          (positiveWords.filter (fun w => pyIn w
            (pyLower (joinSpace ((pySplitAny ['.', '!', '?'] response).filter
              (fun s => pyIn (pyLower brand) (pyLower s))))))).length then
        "negative".toList
      else "neutral".toList

/-- `SpeedTestService._extract_relevant_sentence`: first sentence with a
recommendation word and a competitor, else first with a competitor, else
first longer than 50 characters once stripped. -/
def extract_relevant_sentence (response : List Char)
    (competitors : List (List Char)) : Option (List Char) :=
  if response.isEmpty then none
  else
    match (pySplitAny ['.', '!', '?'] response).find? (fun s =>
        ((["recommend", "suggest", "best", "top"].map String.toList).any
          (fun w => pyIn w (pyLower s))) &&
        ((competitors.take 3).any (fun c => pyIn (pyLower c) (pyLower s)))) with
    | some s => some (pyStrip s ++ ['.'])
    | none =>
      match (pySplitAny ['.', '!', '?'] response).find? (fun s =>
          (competitors.take 3).any (fun c => pyIn (pyLower c) (pyLower s))) with
      | some s => some (pyStrip s ++ ['.'])
      | none =>
        match (pySplitAny ['.', '!', '?'] response).find?
            (fun s => (pyStrip s).length > 50) with
        | some s => some (pyStrip s ++ ['.'])
        | none => none

/-! ## Provider gateway (`MultiProviderAI`, ai_service.py) -/

/-- One configured provider's model pair (`providers[name]["model"]` and
`providers[name]["fallback_model"]`). -/
structure ProviderCfg where
  model : List Char
  fallback_model : List Char
deriving DecidableEq, Repr

/-- Outcome of one upstream SDK call: it raised, or it returned text. -/
inductive CallResult where
  | raise
  | ok (text : List Char)
deriving DecidableEq, Repr

/-- `_call_anthropic` (and the standard, non-web-search path of
`_call_openai` and `_call_google`): call the primary model; only when that
call raises is the fallback model called, once, its outcome propagated; a
primary call that returns (even empty text) never reaches the fallback.
Also returns the model variants attempted, in order. -/
def call_provider_api (oracle : List Char → CallResult) (cfg : ProviderCfg) :
    CallResult × List (List Char) :=
  match oracle cfg.model with
  | .ok t => (.ok t, [cfg.model])
  | .raise =>
    match oracle cfg.fallback_model with
    | .ok t => (.ok t, [cfg.model, cfg.fallback_model])
    | .raise => (.raise, [cfg.model, cfg.fallback_model])

/-- The provider loop of `MultiProviderAI.generate`: try each provider of
`provider_order` that is configured; an exception from the provider call is
caught and the next provider tried; a falsy result (`None` or empty text)
also moves on; the first truthy text is returned at once. Returns the text
(if any) and the trace of (provider, model) attempts. -/
def generateGo (oracle : List Char → List Char → CallResult)
    (providers : List (List Char × ProviderCfg)) :
    List (List Char) → Option (List Char) × List (List Char × List Char)
  | [] => (none, [])
  | pname :: rest =>
    match List.lookup pname providers with
    | none => generateGo oracle providers rest
    | some cfg =>
      match call_provider_api (oracle pname) cfg with
      | (CallResult.ok t, attempts) =>
        if t.isEmpty then
          ((generateGo oracle providers rest).1,
            attempts.map (fun m => (pname, m)) ++ (generateGo oracle providers rest).2)
        else (some t, attempts.map (fun m => (pname, m)))
      | (CallResult.raise, attempts) =>
        ((generateGo oracle providers rest).1,
          attempts.map (fun m => (pname, m)) ++ (generateGo oracle providers rest).2)

/-- `MultiProviderAI.generate`: the `is_available` guard plus the provider
loop; `None` when every configured provider fails. -/
def generate (oracle : List Char → List Char → CallResult)
    (providers : List (List Char × ProviderCfg))
    (provider_order : List (List Char)) :
    Option (List Char) × List (List Char × List Char) :=
  if providers.isEmpty then (none, [])
  else generateGo oracle providers provider_order

/-- The Anthropic provider entry of `_init_providers`. -/
def anthropicCfg : ProviderCfg :=
  { model := "claude-sonnet-4-20250514".toList,
    fallback_model := "claude-3-5-sonnet-20241022".toList }

/-- An upstream behaviour whose primary Anthropic call returns empty text
while its fallback call would return text. -/
def emptyPrimaryOracle : List Char → List Char → CallResult :=
  fun _ model =>
    if model = "claude-sonnet-4-20250514".toList then .ok []
    else .ok "Claude says hi".toList

/-- An upstream behaviour whose primary Anthropic call raises while its
fallback call returns text. -/
def raisingPrimaryOracle : List Char → List Char → CallResult :=
  fun _ model =>
    if model = "claude-sonnet-4-20250514".toList then .raise
    else .ok "Claude says hi".toList

/-- A gateway configured with Anthropic only. -/
def anthropicOnlyProviders : List (List Char × ProviderCfg) :=
  [("anthropic".toList, anthropicCfg)]

/-- Priority order listing Anthropic only. -/
def anthropicOnlyOrder : List (List Char) := ["anthropic".toList]

/-! ## Orchestrator (`SpeedTestService._query_all_parallel`,
`_query_single_model`) -/

/-- A static catalog entry of `SpeedTestService.MODELS`. -/
structure ModelSpec where
  id : List Char
  provider : List Char
  name : List Char
  icon : List Char
deriving DecidableEq, Repr

/-- `SpeedTestService.MODELS`. -/
def MODELS : List ModelSpec :=
  [{ id := "gpt-4o".toList, provider := "openai".toList, name := "GPT-4o".toList,
     icon := "🤖".toList },
   { id := "claude-sonnet-4".toList, provider := "anthropic".toList,
     name := "Claude Sonnet 4".toList, icon := "🧠".toList }]

/-- Outcome of the awaited `generate_with_model` call inside
`_query_single_model`: the call raised with a message, or returned
`None`/text. -/
inductive GwResult where
  | raise (msg : List Char)
  | ret (text : Option (List Char))
deriving DecidableEq, Repr

/-- The analysis tail of `_query_single_model`: populate the cell from the
final `response` text and the optional error (`response_time_ms` is
wall-clock and modelled as 0). -/
def analyzeCell (brand prompt : List Char) (model : ModelSpec)
    (response : List Char) (error : Option (List Char)) : ModelResult :=
  { model_id := model.id, model_name := model.name, provider := model.provider,
    mentioned := if !response.isEmpty then brand_in_response brand response else false,
    position :=
      if (if !response.isEmpty then brand_in_response brand response else false) then
        find_position brand response
      else none,
    sentiment :=
      if (if !response.isEmpty then brand_in_response brand response else false) then
        analyze_sentiment response brand
      else "neutral".toList,
    competitors_found :=
      if !response.isEmpty then extract_brands_from_response response brand else [],
    killer_quote :=
      if !response.isEmpty then
        extract_relevant_sentence response
          (extract_brands_from_response response brand)
      else none,
    full_response := response,
    response_time_ms := 0,
    prompt := prompt,
    error := error }

/-- `SpeedTestService._query_single_model` as a function of the gateway
outcome: the provider-availability guard, the exception handler, the
empty-response branch and the analysis. -/
def query_single_model (brand : List Char) (available_providers : List (List Char))
    (prompt : List Char) (model : ModelSpec) (gw : GwResult) : ModelResult :=
  if !available_providers.contains model.provider then
    { model_id := model.id, model_name := model.name, provider := model.provider,
      mentioned := false, prompt := prompt,
      error := some ("Provider '".toList ++ model.provider ++
        "' not configured. Add API key to .env file.".toList) }
  else
    match gw with
    | .raise msg => analyzeCell brand prompt model [] (some msg)
    | .ret none =>
      analyzeCell brand prompt model [] (some "Empty response from model".toList)
    | .ret (some txt) =>
      if txt.isEmpty then
        analyzeCell brand prompt model [] (some "Empty response from model".toList)
      else analyzeCell brand prompt model txt none

/-- Outcome of one dispatched task as `asyncio.gather(...,
return_exceptions=True)` hands it back: the task raised (gather returns the
exception as a value), or it ran `_query_single_model` whose gateway call
behaved as `gw`. -/
inductive TaskOutcome where
  | exn (msg : List Char)
  | val (gw : GwResult)
deriving DecidableEq, Repr

/-- Placeholder `ModelSpec` for the out-of-range `models[i % len]` lookup in
the exception branch; never reached when the task list is non-empty. -/
def dummyModel : ModelSpec := { id := [], provider := [], name := [], icon := [] }

/-- The task grid of `_query_all_parallel`: one (prompt, model) pair per
dispatched task, prompts outermost — task `i` is
`(prompts[i // len(models)], models[i % len(models)])`. -/
def taskGrid (prompts : List (List Char)) (models : List ModelSpec) :
    List (List Char × ModelSpec) :=
  (prompts.map (fun p => models.map (fun m => (p, m)))).flatten

/-- `SpeedTestService._query_all_parallel`: dispatch the full grid, gather
every outcome, and convert a raised exception into an error cell
re-associated by index (`prompt_idx = i // len(MODELS)`,
`model_idx = i % len(MODELS)`). -/
def query_all_parallel (brand : List Char) (available_providers : List (List Char))
    (prompts : List (List Char)) (models : List ModelSpec)
    (outcome : Nat → TaskOutcome) : List ModelResult :=
  ((taskGrid prompts models).enum).map (fun im =>
    match outcome im.1 with
    | .exn msg =>
      { model_id := (models.getD (im.1 % models.length) dummyModel).id,
        model_name := (models.getD (im.1 % models.length) dummyModel).name,
        provider := (models.getD (im.1 % models.length) dummyModel).provider,
        mentioned := false,
        prompt := prompts.getD (im.1 / models.length) [],
        error := some msg }
    | .val gw => query_single_model brand available_providers im.2.1 im.2.2 gw)

/-! ## Concrete cell sets used by the scenario claims -/

/-- Cell: GPT-4o on prompt 1, Acme mentioned at position 1, positive. -/
def cellA1 : ModelResult :=
  { model_id := "gpt-4o".toList, model_name := "GPT-4o".toList,
    provider := "openai".toList, mentioned := true, position := some 1,
    sentiment := "positive".toList, prompt := "What are the best running shoes?".toList }

/-- Cell: Claude Sonnet 4 on prompt 1, Acme mentioned at position 1, positive. -/
def cellA2 : ModelResult :=
  { model_id := "claude-sonnet-4".toList, model_name := "Claude Sonnet 4".toList,
    provider := "anthropic".toList, mentioned := true, position := some 1,
    sentiment := "positive".toList, prompt := "What are the best running shoes?".toList }

/-- Cell: GPT-4o on prompt 2, Acme mentioned at position 1, positive. -/
def cellA3 : ModelResult :=
  { model_id := "gpt-4o".toList, model_name := "GPT-4o".toList,
    provider := "openai".toList, mentioned := true, position := some 1,
    sentiment := "positive".toList, prompt := "Top running shoe brands in 2025".toList }

/-- Cell: Claude Sonnet 4 on prompt 2, Acme not mentioned, error-free. -/
def cellA4 : ModelResult :=
  { model_id := "claude-sonnet-4".toList, model_name := "Claude Sonnet 4".toList,
    provider := "anthropic".toList, mentioned := false,
    prompt := "Top running shoe brands in 2025".toList }

/-- The four error-free cells of the C2 scenario. -/
def scenarioCells : List ModelResult := [cellA1, cellA2, cellA3, cellA4]

/-- An error-free cell with the brand mentioned. -/
def cellOkMentioned : ModelResult :=
  { model_id := "gpt-4o".toList, model_name := "GPT-4o".toList,
    provider := "openai".toList, mentioned := true,
    full_response := "Acme is great".toList }

/-- A cell carrying a transport error (brand necessarily not mentioned). -/
def cellErrored : ModelResult :=
  { model_id := "claude-sonnet-4".toList, model_name := "Claude Sonnet 4".toList,
    provider := "anthropic".toList, mentioned := false,
    error := some "Connection timeout".toList }

end GeoApp

namespace GeoApp

/-! ## C3: verdict boundaries -/

/-- C3: the verdict/grade mapping uses inclusive lower bounds exactly:
19 → invisible/F, 20 and 39 → ghost/D, 40 and 59 → contender/C,
60 and 79 → visible/B, and every score ≥ 80 → authority/A. -/
theorem verdict_boundaries_exact :
    get_verdict 19 = ("invisible", "🔴", "F") ∧
    get_verdict 20 = ("ghost", "🟠", "D") ∧
    get_verdict 39 = ("ghost", "🟠", "D") ∧
    get_verdict 40 = ("contender", "🟡", "C") ∧
    get_verdict 59 = ("contender", "🟡", "C") ∧
    get_verdict 60 = ("visible", "🟢", "B") ∧
    get_verdict 79 = ("visible", "🟢", "B") ∧
    ∀ s : ℤ, 80 ≤ s → get_verdict s = ("authority", "💚", "A") := by
  refine ⟨by decide, by decide, by decide, by decide, by decide, by decide, by decide, ?_⟩
  intro s hs
  unfold get_verdict
  rw [if_neg (by omega), if_neg (by omega), if_neg (by omega), if_neg (by omega)]

/-- Witness for C3 at score 85. -/
theorem verdict_boundaries_exact_witness :
    get_verdict 85 = ("authority", "💚", "A") :=
  verdict_boundaries_exact.2.2.2.2.2.2.2 85 (by decide)

/-! ## C9: score and mention-rate bounds -/

theorem mentionRateOf_nonneg (results : List ModelResult) : 0 ≤ mentionRateOf results := by
  unfold mentionRateOf
  split
  · exact le_refl 0
  · positivity

theorem mentionRateOf_le_one (results : List ModelResult) : mentionRateOf results ≤ 1 := by
  unfold mentionRateOf
  split
  · exact zero_le_one
  · rename_i h
    rw [div_le_one (by positivity)]
    exact_mod_cast List.length_filter_le _ _

theorem positionBonusOf_nonneg (results : List ModelResult) : 0 ≤ positionBonusOf results := by
  unfold positionBonusOf; split; · norm_num
  split; · norm_num
  · exact le_refl 0

theorem sentimentBonusOf_nonneg (results : List ModelResult) : 0 ≤ sentimentBonusOf results := by
  unfold sentimentBonusOf; split; · norm_num
  split; · norm_num
  · exact le_refl 0

theorem consistencyBonusOf_nonneg (results : List ModelResult) : 0 ≤ consistencyBonusOf results := by
  unfold consistencyBonusOf; split; · norm_num
  split; · norm_num
  · exact le_refl 0

theorem scoreOf_bounds (results : List ModelResult) :
    0 ≤ scoreOf results ∧ scoreOf results ≤ 100 := by
  unfold scoreOf
  split
  · exact ⟨le_refl 0, by norm_num⟩
  · constructor
    · refine le_min (by norm_num) ?_
      refine Int.floor_nonneg.mpr ?_
      have hb : 0 ≤ baseOf results := by
        unfold baseOf
        have := mentionRateOf_nonneg results
        positivity
      have h1 := positionBonusOf_nonneg results
      have h2 := sentimentBonusOf_nonneg results
      have h3 := consistencyBonusOf_nonneg results
      linarith
    · exact min_le_left _ _

/-- C9: for every input cell set — any combination of mentioned/unmentioned
cells, positions, sentiments, providers, including the empty set — the score
of `_calculate_score` lies in `[0, 100]` and the mention rate computed in
`run_test` lies in `[0, 1]`. -/
theorem score_and_mention_rate_bounded (all_results : List ModelResult) :
    0 ≤ (calculate_score all_results).1 ∧ (calculate_score all_results).1 ≤ 100 ∧
    0 ≤ runTestMentionRate all_results ∧ runTestMentionRate all_results ≤ 1 := by
  refine ⟨?_, ?_, ?_, ?_⟩
  · unfold calculate_score
    split
    · exact le_refl 0
    · exact (scoreOf_bounds all_results).1
  · unfold calculate_score
    split
    · norm_num
    · exact (scoreOf_bounds all_results).2
  · unfold runTestMentionRate
    split
    · exact le_refl 0
    · positivity
  · unfold runTestMentionRate
    split
    · exact zero_le_one
    · rename_i h
      have hne : validResults all_results ≠ [] := by
        simpa [List.isEmpty_iff] using h
      have hlen : (0 : ℚ) < ((validResults all_results).length : ℚ) := by
        exact_mod_cast List.length_pos.mpr hne
      rw [div_le_one hlen]
      exact_mod_cast List.length_filter_le _ _

/-! ## C2: end-to-end scoring scenario (2 prompts × 2 models, 3 of 4 mentioned) -/

/-- C2: with the brand mentioned in 3 of 4 error-free cells, each mention at
position 1 with positive sentiment, spanning 2 distinct providers,
`_calculate_score` yields mentionRate 0.75, base 45, positionBonus 20,
sentimentBonus 10, consistencyBonus 10, hence score 85 with verdict
"authority" and grade "A". -/
theorem scenario_score_85_authority :
    mentionRateOf scenarioCells = 3 / 4 ∧
    baseOf scenarioCells = 45 ∧
    positionBonusOf scenarioCells = 20 ∧
    sentimentBonusOf scenarioCells = 10 ∧
    consistencyBonusOf scenarioCells = 10 ∧
    calculate_score scenarioCells = (85, "authority", "💚", "A") := by
  have hm : (scenarioCells.filter (·.mentioned)).length = 3 := by decide
  have hl : scenarioCells.length = 4 := by decide
  have hrate : mentionRateOf scenarioCells = 3 / 4 := by
    unfold mentionRateOf; rw [hm, hl]; norm_num
  have hbase : baseOf scenarioCells = 45 := by
    unfold baseOf; rw [hrate]; norm_num
  have hposl : recordedPositions scenarioCells = [1, 1, 1] := by decide
  have havg : avgPositionOf scenarioCells = 1 := by
    unfold avgPositionOf; rw [hposl]; norm_num [List.foldl, List.isEmpty]
  have hpos : positionBonusOf scenarioCells = 20 := by
    unfold positionBonusOf; rw [havg]; norm_num
  have hsentl : mentionedSentiments scenarioCells =
      ["positive".toList, "positive".toList, "positive".toList] := by decide
  have hprate : positiveRateOf scenarioCells = 1 := by
    unfold positiveRateOf; rw [hsentl]; norm_num [List.isEmpty, List.filter]
  have hsent : sentimentBonusOf scenarioCells = 10 := by
    unfold sentimentBonusOf; rw [hprate]; norm_num
  have hprov : mentionedProviderCount scenarioCells = 2 := by decide
  have hcons : consistencyBonusOf scenarioCells = 10 := by
    unfold consistencyBonusOf; rw [hprov]; norm_num
  have hne : scenarioCells.isEmpty = false := by decide
  have hscore : scoreOf scenarioCells = 85 := by
    unfold scoreOf; rw [hne, hbase, hpos, hsent, hcons]; norm_num
  refine ⟨hrate, hbase, hpos, hsent, hcons, ?_⟩
  unfold calculate_score
  rw [hne, hscore]
  decide

/-! ## C1: the denominator of the aggregate mention rate -/

/-- Counterexample to C1: with one mentioned error-free cell and one errored
cell, the claim predicts mention rate `1/2` (errored cells kept in the
denominator), but `run_test` computes `1` — errored cells are filtered out
before both the rate and the score are computed, so the score is the one of
the single valid cell (65), not the one the all-cells denominator would give
(base 30, score 35). -/
theorem mention_rate_denominator_cex :
    runTestMentionRate [cellOkMentioned, cellErrored] = 1 ∧
    runTestMentionRate [cellOkMentioned, cellErrored] ≠ 1 / 2 ∧
    runTestScore [cellOkMentioned, cellErrored] = 65 ∧
    calculate_score [cellOkMentioned] = (65, "visible", "🟢", "B") := by
  have hv : validResults [cellOkMentioned, cellErrored] = [cellOkMentioned] := by decide
  have hrate1 : mentionRateOf [cellOkMentioned] = 1 := by
    unfold mentionRateOf; norm_num [List.filter, cellOkMentioned]
  have hbase : baseOf [cellOkMentioned] = 60 := by
    unfold baseOf; rw [hrate1]; norm_num
  have hposl : recordedPositions [cellOkMentioned] = [] := by decide
  have havg : avgPositionOf [cellOkMentioned] = 10 := by
    unfold avgPositionOf; rw [hposl]; norm_num [List.isEmpty]
  have hpos : positionBonusOf [cellOkMentioned] = 0 := by
    unfold positionBonusOf; rw [havg]; norm_num
  have hsentl : mentionedSentiments [cellOkMentioned] = ["neutral".toList] := by decide
  have hprate : positiveRateOf [cellOkMentioned] = 0 := by
    unfold positiveRateOf; rw [hsentl]; norm_num [List.isEmpty, List.filter]
  have hsent : sentimentBonusOf [cellOkMentioned] = 0 := by
    unfold sentimentBonusOf; rw [hprate]; norm_num
  have hprov : mentionedProviderCount [cellOkMentioned] = 1 := by decide
  have hcons : consistencyBonusOf [cellOkMentioned] = 5 := by
    unfold consistencyBonusOf; rw [hprov]; norm_num
  have hne : ([cellOkMentioned] : List ModelResult).isEmpty = false := by decide
  have hscore : scoreOf [cellOkMentioned] = 65 := by
    unfold scoreOf; rw [hne, hbase, hpos, hsent, hcons]; norm_num
  have hcalc : calculate_score [cellOkMentioned] = (65, "visible", "🟢", "B") := by
    unfold calculate_score
    rw [hne, hscore]
    decide
  refine ⟨?_, ?_, ?_, hcalc⟩
  · unfold runTestMentionRate
    rw [hv]
    norm_num [List.filter, cellOkMentioned, List.isEmpty]
  · unfold runTestMentionRate
    rw [hv]
    norm_num [List.filter, cellOkMentioned, List.isEmpty]
  · unfold runTestScore
    rw [hv, hcalc]

/-- C1 as amended: cells carrying an error are excluded entirely — appending
an errored cell (truthy error field) changes neither `run_test`'s aggregate
mention rate nor its score, whose base term divides by the count of
error-free cells only. -/
theorem mention_rate_excludes_errored_cells (rs : List ModelResult) (c : ModelResult)
    (hc : pyTruthyOptStr c.error = true) :
    runTestMentionRate (rs ++ [c]) = runTestMentionRate rs ∧
    runTestScore (rs ++ [c]) = runTestScore rs := by
  have hv : validResults (rs ++ [c]) = validResults rs := by
    unfold validResults
    rw [List.filter_append]
    simp [hc]
  constructor
  · unfold runTestMentionRate
    rw [hv]
  · unfold runTestScore
    rw [hv]

/-- Witness for the amended C1: one valid mentioned cell plus one errored
cell. -/
theorem mention_rate_excludes_errored_cells_witness :
    runTestMentionRate ([cellOkMentioned] ++ [cellErrored]) =
      runTestMentionRate [cellOkMentioned] ∧
    runTestScore ([cellOkMentioned] ++ [cellErrored]) = runTestScore [cellOkMentioned] :=
  mention_rate_excludes_errored_cells [cellOkMentioned] cellErrored (by decide)

/-! ## C6: mention-detection normalization -/

/-- Counterexample to C6: on brand "New Balance" and text
"new_balance shoes", the spec's normalization rule (collapse `-`, `_`, `.`
to spaces in both strings) detects a mention, but
`SpeedTestService._brand_in_response` does not — it never normalizes `_` or
`.` in the text, so the claimed if-and-only-if characterization fails. -/
theorem speedtest_mention_normalization_cex :
    specClaimedMention "New Balance".toList "new_balance shoes".toList = true ∧
    brand_in_response "New Balance".toList "new_balance shoes".toList = false := by
  refine ⟨by decide, by decide⟩

/-- C6 as amended: `_brand_in_response` reports a mention iff the lowercased
brand is a substring of the lowercased text, or the space-stripped
lowercased brand is a substring of the space-stripped lowercased text, or
the lowercased brand with spaces replaced by hyphens is a substring of the
lowercased text (`-`/`_`/`.` in the text are not normalized); brand
"New Balance" is still detected in all three example texts, and the
visibility monitor's `_brand_in_text` — which does implement the spec's
normalization — detects all three as well. -/
theorem brand_mention_detection_rules :
    (∀ brand response : List Char,
      brand_in_response brand response =
        (!response.isEmpty &&
          (pyIn (pyLower brand) (pyLower response) ||
           pyIn (dropSpaces (pyLower brand)) (dropSpaces (pyLower response)) ||
           pyIn (spacesToHyphens (pyLower brand)) (pyLower response)))) ∧
    brand_in_response "New Balance".toList "new-balance shoes are great".toList = true ∧
    brand_in_response "New Balance".toList "NEWBALANCE is popular".toList = true ∧
    brand_in_response "New Balance".toList "I recommend New Balance.".toList = true ∧
    brand_in_text "New Balance".toList "new-balance shoes are great".toList = true ∧
    brand_in_text "New Balance".toList "NEWBALANCE is popular".toList = true ∧
    brand_in_text "New Balance".toList "I recommend New Balance.".toList = true := by
  refine ⟨?_, by decide, by decide, by decide, by decide, by decide, by decide⟩
  intro brand response
  unfold brand_in_response
  cases h : response.isEmpty
  · rw [if_neg (by simp [h])]
    dsimp only
    split_ifs <;> simp_all [h]
  · rw [if_pos (by simp [h])]
    simp [h]

/-! ## C10: the empty brand matches every non-empty response -/

theorem pyIn_nil (l : List Char) : pyIn [] l = true := by
  cases l <;> simp [pyIn, List.isPrefixOf]

/-- C10: for every non-empty response text, mention detection with the
empty-string brand returns `True` (the empty string is a substring of any
text), so a test run invoked with brand `""` counts every cell that produced
any text as a mention. -/
theorem empty_brand_always_mentioned (response : List Char) (h : response ≠ []) :
    brand_in_response [] response = true := by
  unfold brand_in_response
  have hne : response.isEmpty = false := by
    simpa [List.isEmpty_iff] using h
  rw [hne]
  simp [pyLower, pyIn_nil]

/-- Witness for C10 on the text "hello". -/
theorem empty_brand_always_mentioned_witness :
    brand_in_response [] "hello".toList = true :=
  empty_brand_always_mentioned "hello".toList (by decide)

/-! ## C7: no capitalized-token fallback in `_find_position` -/

/-- Counterexample to C7: brand "Acme" is mentioned in the plain line
"I recommend Acme products", which starts with neither a numbered-list
prefix nor a bullet marker; the claim says the reported position is then
the capitalized-token count before the brand plus one — some number — but
`_find_position` reports no position at all: there is no fallback branch. -/
theorem find_position_no_fallback_cex :
    brand_in_response "Acme".toList "I recommend Acme products".toList = true ∧
    numberedPrefix "I recommend Acme products".toList = none ∧
    isBulletLine "I recommend Acme products".toList = false ∧
    (find_position "Acme".toList "I recommend Acme products".toList).isSome = false := by
  refine ⟨by decide, by decide, by decide, by decide⟩

theorem find_position_go_none (bl : List Char) (all : List (List Char)) :
    ∀ pend : List (List Char), ∀ i : Nat,
      (∀ line ∈ pend,
        (pyIn bl (pyLower line) ||
          pyIn (dropSpaces bl) (dropSpaces (pyLower line))) = true →
        numberedPrefix line = none ∧ isBulletLine line = false) →
      find_position_go bl all pend i = none := by
  intro pend
  induction pend with
  | nil => intro i _; rfl
  | cons line rest ih =>
    intro i h
    have hrec := ih (i + 1) (fun l hl => h l (List.mem_cons_of_mem _ hl))
    unfold find_position_go
    dsimp only
    by_cases hb : (pyIn bl (pyLower line) ||
        pyIn (dropSpaces bl) (dropSpaces (pyLower line))) = true
    · rw [if_pos hb]
      have h1 := (h line (List.mem_cons_self _ _) hb).1
      have h2 := (h line (List.mem_cons_self _ _) hb).2
      rw [h1]
      dsimp only
      rw [h2]
      simpa using hrec
    · rw [if_neg hb]
      exact hrec

/-- C7 as amended: `_find_position` reports a position only from a
numbered-list prefix or from bullet counting; for a brand none of whose
containing lines (under the loop's own containment test) starts with a
numbered prefix or a bullet marker, the reported position is `None` —
there is no capitalized-token fallback. Lines without the brand may carry
any markers. -/
theorem find_position_none_without_list_markers (brand response : List Char)
    (h : ∀ line ∈ pySplitOn '\n' response,
      (pyIn (pyLower brand) (pyLower line) ||
        pyIn (dropSpaces (pyLower brand)) (dropSpaces (pyLower line))) = true →
      numberedPrefix line = none ∧ isBulletLine line = false) :
    find_position brand response = none := by
  unfold find_position
  dsimp only
  split_ifs with hr
  · rfl
  · exact find_position_go_none _ _ _ 0 h

/-- Witness for the amended C7: a response with a bullet line that does not
contain the brand, and a plain brand line — no position is reported. -/
theorem find_position_none_without_list_markers_witness :
    find_position "Acme".toList "- Globex\nAcme is a good choice".toList = none :=
  find_position_none_without_list_markers "Acme".toList
    "- Globex\nAcme is a good choice".toList (by decide)

/-! ## C8: competitor extraction filters -/

theorem extractStep_invariant (u : List Char) :
    ∀ (cands acc : List (List Char)),
      (∀ x ∈ acc, keptCandidateOK u x) →
      ∀ x ∈ cands.foldl (extractStep u) acc, keptCandidateOK u x := by
  intro cands
  induction cands with
  | nil => intro acc h x hx; exact h x hx
  | cons m rest ih =>
    intro acc h x hx
    rw [List.foldl_cons] at hx
    refine ih _ ?_ x hx
    intro y hy
    unfold extractStep at hy
    split_ifs at hy with h1 h2 h3 h4 h5
    · exact h y hy
    · exact h y hy
    · exact h y hy
    · exact h y hy
    · exact h y hy
    · rcases List.mem_append.mp hy with hmem | hmem
      · exact h y hmem
      · have hym : y = pyStrip m := by simpa using hmem
        subst hym
        rw [Bool.or_eq_true, not_or] at h2 h3
        refine ⟨by simpa using h1, ?_, ?_, ?_, ?_, by simpa using h4⟩
        · intro hc
          exact h2.1 (by simp [hc])
        · simpa using h2.2
        · have := h3.1
          simp only [decide_eq_true_eq] at this
          omega
        · have := h3.2
          simp only [decide_eq_true_eq] at this
          omega

/-- C8: competitor extraction excludes the brand itself (and any candidate
containing it), stop-words, candidates with digits, and candidates outside
3–30 characters; in particular, for brand "Acme" and answer text
"The best options are Acme, Globex, and Initech.", the extracted list is
exactly ["Globex", "Initech"], in that order. -/
theorem competitor_extraction_filters :
    (∀ response user_brand b,
      b ∈ extract_brands_from_response response user_brand →
        keptCandidateOK (pyLower user_brand) b) ∧
    extract_brands_from_response "The best options are Acme, Globex, and Initech.".toList
      "Acme".toList = ["Globex".toList, "Initech".toList] := by
  constructor
  · intro response user_brand b hb
    unfold extract_brands_from_response at hb
    split_ifs at hb
    · simp at hb
    · exact extractStep_invariant (pyLower user_brand) _ [] (by simp) b
        (List.mem_of_mem_take hb)
  · decide

/-- Witness for C8: the kept-candidate property applied to "Globex" in the
example extraction. -/
theorem competitor_extraction_filters_witness :
    keptCandidateOK (pyLower "Acme".toList) "Globex".toList :=
  competitor_extraction_filters.1
    "The best options are Acme, Globex, and Initech.".toList "Acme".toList
    "Globex".toList (by decide)

/-! ## C4: fallback model attempts in the gateway -/

/-- Counterexample to C4: with Anthropic configured and an upstream whose
primary call returns empty text (no exception) while the fallback call
would return "Claude says hi", `generate` attempts only the primary model —
the fallback is never tried on empty text, the provider is abandoned and
the call returns `None`. -/
theorem gateway_no_fallback_on_empty_cex :
    emptyPrimaryOracle "anthropic".toList anthropicCfg.fallback_model =
      CallResult.ok "Claude says hi".toList ∧
    generate emptyPrimaryOracle anthropicOnlyProviders anthropicOnlyOrder =
      (none, [("anthropic".toList, "claude-sonnet-4-20250514".toList)]) := by
  refine ⟨by decide, by decide⟩

theorem generateGo_trace_spec (oracle : List Char → List Char → CallResult)
    (providers : List (List Char × ProviderCfg)) :
    ∀ (order : List (List Char)) (p m : List Char),
      (p, m) ∈ (generateGo oracle providers order).2 →
      ∃ cfg, List.lookup p providers = some cfg ∧
        (m = cfg.model ∨ (m = cfg.fallback_model ∧
          oracle p cfg.model = CallResult.raise)) := by
  intro order
  induction order with
  | nil =>
    intro p m h
    simp [generateGo] at h
  | cons pname rest ih =>
    intro p m h
    unfold generateGo at h
    cases hlk : List.lookup pname providers with
    | none =>
      rw [hlk] at h
      exact ih p m h
    | some cfg =>
      rw [hlk] at h
      dsimp only at h
      cases hor : oracle pname cfg.model with
      | ok t =>
        have hcall : call_provider_api (oracle pname) cfg =
            (CallResult.ok t, [cfg.model]) := by
          unfold call_provider_api
          rw [hor]
        rw [hcall] at h
        dsimp only at h
        by_cases ht : t.isEmpty = true
        · rw [if_pos ht] at h
          simp only [List.map_cons, List.map_nil, List.cons_append, List.nil_append,
            List.mem_cons] at h
          rcases h with h | h
          · rw [Prod.mk.injEq] at h
            obtain ⟨hp, hm⟩ := h
            subst hp; subst hm
            exact ⟨cfg, hlk, Or.inl rfl⟩
          · exact ih p m h
        · rw [if_neg ht] at h
          simp only [List.map_cons, List.map_nil, List.mem_cons,
            List.not_mem_nil, or_false] at h
          rw [Prod.mk.injEq] at h
          obtain ⟨hp, hm⟩ := h
          subst hp; subst hm
          exact ⟨cfg, hlk, Or.inl rfl⟩
      | raise =>
        have hmem2 : ∀ hmem : (p, m) ∈
            ([cfg.model, cfg.fallback_model].map (fun x => (pname, x))) ++
              (generateGo oracle providers rest).2,
            ∃ cfg2, List.lookup p providers = some cfg2 ∧
              (m = cfg2.model ∨ (m = cfg2.fallback_model ∧
                oracle p cfg2.model = CallResult.raise)) := by
          intro hmem
          simp only [List.map_cons, List.map_nil, List.cons_append,
            List.nil_append, List.mem_cons] at hmem
          rcases hmem with hmem | hmem | hmem
          · rw [Prod.mk.injEq] at hmem
            obtain ⟨hp, hm⟩ := hmem
            subst hp; subst hm
            exact ⟨cfg, hlk, Or.inl rfl⟩
          · rw [Prod.mk.injEq] at hmem
            obtain ⟨hp, hm⟩ := hmem
            subst hp; subst hm
            exact ⟨cfg, hlk, Or.inr ⟨rfl, hor⟩⟩
          · exact ih p m hmem
        cases hfb : oracle pname cfg.fallback_model with
        | ok t2 =>
          have hcall : call_provider_api (oracle pname) cfg =
              (CallResult.ok t2, [cfg.model, cfg.fallback_model]) := by
            unfold call_provider_api
            rw [hor, hfb]
          rw [hcall] at h
          dsimp only at h
          by_cases ht : t2.isEmpty = true
          · rw [if_pos ht] at h
            exact hmem2 h
          · rw [if_neg ht] at h
            refine hmem2 ?_
            exact List.mem_append.mpr (Or.inl h)
        | raise =>
          have hcall : call_provider_api (oracle pname) cfg =
              (CallResult.raise, [cfg.model, cfg.fallback_model]) := by
            unfold call_provider_api
            rw [hor, hfb]
          rw [hcall] at h
          dsimp only at h
          exact hmem2 h

/-- C4 as amended: for each provider tried, the primary model variant is
attempted first; only when the primary call raises (a transport error) is
exactly one fallback variant of the same provider attempted, after which a
still-failing provider is abandoned and the next provider in priority order
is tried. A primary call returning empty text moves on to the next provider
without attempting the fallback. Every model appearing in `generate`'s
attempt trace is the configured primary of its provider, or its configured
fallback and then only because the primary raised. -/
theorem gateway_fallback_only_on_exception
    (oracle : List Char → List Char → CallResult)
    (providers : List (List Char × ProviderCfg)) (order : List (List Char)) :
    (∀ pname cfg, List.lookup pname providers = some cfg →
      (call_provider_api (oracle pname) cfg).2 =
        if oracle pname cfg.model = CallResult.raise then
          [cfg.model, cfg.fallback_model]
        else [cfg.model]) ∧
    (∀ p m, (p, m) ∈ (generate oracle providers order).2 →
      ∃ cfg, List.lookup p providers = some cfg ∧
        (m = cfg.model ∨ (m = cfg.fallback_model ∧
          oracle p cfg.model = CallResult.raise))) := by
  constructor
  · intro pname cfg _
    unfold call_provider_api
    cases h : oracle pname cfg.model with
    | ok t => simp [h]
    | raise => cases h2 : oracle pname cfg.fallback_model <;> simp [h, h2]
  · intro p m hm
    unfold generate at hm
    split_ifs at hm
    · simp at hm
    · exact generateGo_trace_spec oracle providers order p m hm

/-- Witness for the amended C4: when the Anthropic primary raises, the
fallback model in the trace is justified exactly by that raise. -/
theorem gateway_fallback_only_on_exception_witness :
    ∃ cfg, List.lookup "anthropic".toList anthropicOnlyProviders = some cfg ∧
      ("claude-3-5-sonnet-20241022".toList = cfg.model ∨
        ("claude-3-5-sonnet-20241022".toList = cfg.fallback_model ∧
          raisingPrimaryOracle "anthropic".toList cfg.model = CallResult.raise)) :=
  (gateway_fallback_only_on_exception raisingPrimaryOracle anthropicOnlyProviders
    anthropicOnlyOrder).2 "anthropic".toList "claude-3-5-sonnet-20241022".toList
    (by decide)

/-! ## C5: the orchestrator's fan-out grid and error isolation -/

theorem taskGrid_length (prompts : List (List Char)) (models : List ModelSpec) :
    (taskGrid prompts models).length = prompts.length * models.length := by
  unfold taskGrid
  induction prompts with
  | nil => simp
  | cons p ps ih =>
    simp only [List.map_cons, List.flatten_cons, List.length_append,
      List.length_map, List.length_cons, ih]
    ring

/-- C5: for every list of prompts, model list, and any behaviour of the
dispatched tasks, the parallel fan-out returns exactly
`prompts.length × models.length` cells, and every task that raised an
exception, or whose gateway call raised, returned `None`, or returned empty
text, becomes a cell whose error field is set and which counts as not
mentioned — for any combination of failures, including all calls of all but
one model failing. -/
theorem orchestrator_grid_and_error_isolation
    (brand : List Char) (available : List (List Char))
    (prompts : List (List Char)) (models : List ModelSpec)
    (outcome : Nat → TaskOutcome) :
    (query_all_parallel brand available prompts models outcome).length =
      prompts.length * models.length ∧
    ∀ (i : Nat)
      (h : i < (query_all_parallel brand available prompts models outcome).length),
      (∀ msg, outcome i = TaskOutcome.exn msg →
        ((query_all_parallel brand available prompts models outcome).get
            ⟨i, h⟩).error = some msg ∧
        ((query_all_parallel brand available prompts models outcome).get
            ⟨i, h⟩).mentioned = false) ∧
      (∀ msg, outcome i = TaskOutcome.val (GwResult.raise msg) →
        ((query_all_parallel brand available prompts models outcome).get
            ⟨i, h⟩).error.isSome = true ∧
        ((query_all_parallel brand available prompts models outcome).get
            ⟨i, h⟩).mentioned = false) ∧
      (outcome i = TaskOutcome.val (GwResult.ret none) →
        ((query_all_parallel brand available prompts models outcome).get
            ⟨i, h⟩).error.isSome = true ∧
        ((query_all_parallel brand available prompts models outcome).get
            ⟨i, h⟩).mentioned = false) ∧
      (∀ t, outcome i = TaskOutcome.val (GwResult.ret (some t)) → t.isEmpty = true →
        ((query_all_parallel brand available prompts models outcome).get
            ⟨i, h⟩).error.isSome = true ∧
        ((query_all_parallel brand available prompts models outcome).get
            ⟨i, h⟩).mentioned = false) := by
  have hlen : (query_all_parallel brand available prompts models outcome).length =
      prompts.length * models.length := by
    unfold query_all_parallel
    rw [List.length_map, List.enum_length]
    exact taskGrid_length prompts models
  refine ⟨hlen, ?_⟩
  intro i h
  have hi : i < (taskGrid prompts models).length := by
    rw [taskGrid_length]
    rw [hlen] at h
    exact h
  have hcell : (query_all_parallel brand available prompts models outcome).get ⟨i, h⟩ =
      match outcome i with
      | TaskOutcome.exn msg =>
        { model_id := (models.getD (i % models.length) dummyModel).id,
          model_name := (models.getD (i % models.length) dummyModel).name,
          provider := (models.getD (i % models.length) dummyModel).provider,
          mentioned := false,
          prompt := prompts.getD (i / models.length) [],
          error := some msg }
      | TaskOutcome.val gw =>
        query_single_model brand available ((taskGrid prompts models).get ⟨i, hi⟩).1
          ((taskGrid prompts models).get ⟨i, hi⟩).2 gw := by
    unfold query_all_parallel
    rw [List.get_eq_getElem, List.getElem_map, List.getElem_enum]
    rfl
  have herrcell : ∀ prompt model gw,
      (gw = GwResult.ret none ∨ (∃ msg, gw = GwResult.raise msg) ∨
        (∃ t, gw = GwResult.ret (some t) ∧ t.isEmpty = true)) →
      (query_single_model brand available prompt model gw).error.isSome = true ∧
      (query_single_model brand available prompt model gw).mentioned = false := by
    intro prompt model gw hgw
    unfold query_single_model
    split_ifs with hav
    · exact ⟨rfl, rfl⟩
    · rcases hgw with hgw | ⟨msg, hgw⟩ | ⟨t, hgw, ht⟩ <;> subst hgw
      · exact ⟨rfl, rfl⟩
      · exact ⟨rfl, rfl⟩
      · dsimp only
        rw [if_pos ht]
        exact ⟨rfl, rfl⟩
  refine ⟨?_, ?_, ?_, ?_⟩
  · intro msg hout
    rw [hcell, hout]
    exact ⟨rfl, rfl⟩
  · intro msg hout
    rw [hcell, hout]
    exact herrcell _ _ _ (Or.inr (Or.inl ⟨msg, rfl⟩))
  · intro hout
    rw [hcell, hout]
    exact herrcell _ _ _ (Or.inl rfl)
  · intro t hout ht
    rw [hcell, hout]
    exact herrcell _ _ _ (Or.inr (Or.inr ⟨t, rfl, ht⟩))

/-- Witness for C5: one prompt over the two configured MODELS with every
task raising "boom" still yields cells, the first carrying the error. -/
theorem orchestrator_grid_and_error_isolation_witness :
    ((query_all_parallel "Acme".toList ["openai".toList, "anthropic".toList]
        ["Best shoes?".toList] MODELS
        (fun _ => TaskOutcome.exn "boom".toList)).get ⟨0, by decide⟩).error =
      some "boom".toList ∧
    ((query_all_parallel "Acme".toList ["openai".toList, "anthropic".toList]
        ["Best shoes?".toList] MODELS
        (fun _ => TaskOutcome.exn "boom".toList)).get ⟨0, by decide⟩).mentioned =
      false :=
  ((orchestrator_grid_and_error_isolation "Acme".toList
      ["openai".toList, "anthropic".toList] ["Best shoes?".toList] MODELS
      (fun _ => TaskOutcome.exn "boom".toList)).2 0 (by decide)).1
    "boom".toList rfl

end GeoApp
